import Mathlib

/-!
Verification of the live-value interpolation and tile refresh engine of the
US fiscal dashboard (`utils.js`, `data.js`, `chart.js`).

The JavaScript source is shallowly embedded: numbers are modelled as `ℚ`
(the claims are about exact arithmetic identities; floating point rounding
is out of scope), JS `null`/`undefined` fields are `Option`, thrown
exceptions are `Except`, and the mutable tile map of `FiscalDashboard` is
explicit state passed through the resolution functions.  Display-only
fields (the `meta` provenance strings, the card UI objects) are omitted;
the error string shown by `ui.setError` is kept, as `Tile.uiError`.
-/

namespace USDebt

/-! ## Calendar model for `Date.parse` / `Utils.parseDate`

`Utils.parseDate(dateString, suffix = 'T23:59:59Z')` evaluates
`Date.parse(dateString + suffix) / 1000`.  For an ISO `YYYY-MM-DD` string
plus a `Thh:mm:ssZ` suffix this is the UTC epoch second of that civil
date/time.  The civil-days-to-epoch-days conversion is the standard
proleptic Gregorian formula (Howard Hinnant's `days_from_civil`). -/

/-- A civil calendar date, the parsed form of a `YYYY-MM-DD` string. -/
structure DateYMD where
  year : Int
  month : Int
  day : Int
deriving DecidableEq

/-- Days since 1970-01-01 of a proleptic Gregorian civil date
(Hinnant `days_from_civil`; models what `Date.parse` does with the
date part of an ISO string). -/
def daysFromCivil (y m d : Int) : Int :=
  let y := if m ≤ 2 then y - 1 else y
  let era := (if 0 ≤ y then y else y - 399) / 400
  let yoe := y - era * 400
  let doy := (153 * (if 2 < m then m - 3 else m + 9) + 2) / 5 + d - 1
  let doe := yoe * 365 + yoe / 4 - yoe / 100 + doy
  era * 146097 + doe - 719468

/-- Epoch second of midnight UTC at the start of a civil date. -/
def epochDayStart (dt : DateYMD) : Int :=
  86400 * daysFromCivil dt.year dt.month dt.day

/-- The time-of-day part of a `Thh:mm:ssZ` suffix. -/
structure TimeOfDay where
  hour : Int
  minute : Int
  second : Int
deriving DecidableEq

/-- `Date.parse(dateString + 'Thh:mm:ssZ') / 1000` for the civil date
`dt` and the given time of day: epoch seconds UTC. -/
def parseDateWith (dt : DateYMD) (t : TimeOfDay) : Int :=
  epochDayStart dt + t.hour * 3600 + t.minute * 60 + t.second

/-- The default suffix of `Utils.parseDate` is `'T23:59:59Z'`. -/
def defaultSuffix : TimeOfDay := ⟨23, 59, 59⟩

/-- `Utils.parseDate(dateString)` with the default suffix. -/
def parseDate (dt : DateYMD) : Int :=
  parseDateWith dt defaultSuffix

/-! ## `Utils` -/

/-- `Utils.safeDivide(numerator, denominator)`:
`denominator === 0 ? 0 : numerator / denominator`. -/
def safeDivide (numerator denominator : ℚ) : ℚ :=
  if denominator = 0 then 0 else numerator / denominator

/-- `CONFIG.constants.SEC_YEAR = 365 * 24 * 3600`. -/
def SEC_YEAR : ℚ := 365 * 24 * 3600

/-! ## `DataProcessor` -/

/-- The state object consumed by `DataProcessor.calculateLiveValue`; each
field may be JS `null`/`undefined`, hence `Option`. -/
structure LiveState where
  baseValue : Option ℚ
  baseTs : Option ℚ
  ratePerSec : Option ℚ

/-- `DataProcessor.calculateLiveValue(state)`.  The JS reads the clock via
`Utils.nowSeconds()`; here the clock value is the explicit argument `now`.
Returns `null` for a `null` state or `null` `baseValue`; returns
`baseValue` unchanged when `ratePerSec` or `baseTs` is nullish; otherwise
`baseValue + ratePerSec * (now - baseTs)`. -/
def calculateLiveValue (state : Option LiveState) (now : ℚ) : Option ℚ :=
  match state with
  | none => none
  | some s =>
    match s.baseValue with
    | none => none
    | some bv =>
      match s.ratePerSec, s.baseTs with
      | some r, some t => some (bv + r * (now - t))
      | some _, none => some bv
      | none, _ => some bv

/-- `DataProcessor.calculateRatePerSecond`:
`(currentValue - previousValue) / Math.max(1, currentTimestamp - previousTimestamp)`. -/
def calculateRatePerSecond (currentValue previousValue currentTimestamp previousTimestamp : ℚ) : ℚ :=
  (currentValue - previousValue) / max 1 (currentTimestamp - previousTimestamp)

/-- One row of the Treasury debt-to-the-penny response, with the numeric
field already through `Utils.toNumber` and the date string parsed. -/
structure DebtRow where
  record_date : DateYMD
  tot_pub_debt_out_amt : ℚ

/-- The snapshot produced by the normalizers and combinators
(`{baseValue, baseTs, ratePerSec, meta}`; the display-only `meta` string
is omitted). -/
structure Snapshot where
  baseValue : ℚ
  baseTs : ℚ
  ratePerSec : ℚ
deriving DecidableEq

/-- `DataProcessor.processDebtData(rows)`: throws on an empty row list;
otherwise uses the first row as base and, when a second row exists,
`calculateRatePerSecond` over the first two rows. -/
def processDebtData (rows : List DebtRow) : Except String Snapshot :=
  match rows with
  | [] => .error "No debt data returned"
  | current :: rest =>
    let currentValue := current.tot_pub_debt_out_amt
    let currentTime : ℚ := (parseDate current.record_date : ℚ)
    match rest with
    | [] => .ok ⟨currentValue, currentTime, 0⟩
    | previous :: _ =>
      let previousValue := previous.tot_pub_debt_out_amt
      let previousTime : ℚ := (parseDate previous.record_date : ℚ)
      .ok ⟨currentValue, currentTime,
           calculateRatePerSecond currentValue previousValue currentTime previousTime⟩

/-- One record of the World Bank response: `date` is the year (a string
such as `"2024"` in the wire format, parsed here), `value` the indicator
value. -/
structure WBRow where
  date : Int
  value : ℚ

/-- Result of `processWorldBankData`; `ratePerSec` involves `Math.log`,
so it lives in `ℝ`. -/
structure WBState where
  baseValue : ℚ
  baseTs : ℚ
  ratePerSec : ℝ

/-- `DataProcessor.processWorldBankData(rows)`: destructures
`rows.slice(0, 2)`, throws when fewer than two records exist, otherwise
`growthRate = (current - previous) / previous`,
`ratePerSec = Math.log(1 + growthRate) / SEC_YEAR * currentValue`, and
`baseTs = Utils.parseDate(current.date + "-01-01", 'T00:00:00Z')`. -/
noncomputable def processWorldBankData (rows : List WBRow) : Except String WBState :=
  match rows with
  | current :: previous :: _ =>
    let currentValue := current.value
    let previousValue := previous.value
    let growthRate := (currentValue - previousValue) / previousValue
    let ratePerSec : ℝ := Real.log (1 + (growthRate : ℝ)) / (SEC_YEAR : ℝ) * (currentValue : ℝ)
    let baseTime : ℚ := (parseDateWith ⟨current.date, 1, 1⟩ ⟨0, 0, 0⟩ : ℚ)
    .ok ⟨currentValue, baseTime, ratePerSec⟩
  | _ => .error "Insufficient World Bank data"

/-! ## `DataManager.fetchFiscalData` retry loop

The loop body (`data.js` lines 121–139) is modelled as a trace-producing
recursion.  `outcome n` abstracts whether the `fetchJSON` call of the
attempt with counter value `n` succeeds.  The trace records, per attempt,
whether a cache-busting nonce was appended (`attempt > 0`), the `delay`
waited after each failed non-terminal attempt, and whether the loop ended
in success or by throwing the terminal error. -/

/-- Per-call observable behaviour of the `fetchFiscalData` retry loop. -/
structure FetchTrace where
  cacheBusts : List Bool
  waits : List ℕ
  ok : Bool
deriving DecidableEq

/-- The `while (attempt <= retries)` loop of `fetchFiscalData`, by
recursion on the retries still allowed.  On failure with retries left it
waits `delay` and continues with `min (delay * 2) 4000`; with none left
it throws (trace `ok := false`). -/
def fetchGo (outcome : ℕ → Bool) : (retriesLeft attempt delay : ℕ) → FetchTrace
  | 0, attempt, _ =>
    if outcome attempt then ⟨[decide (0 < attempt)], [], true⟩
    else ⟨[decide (0 < attempt)], [], false⟩
  | retriesLeft + 1, attempt, delay =>
    if outcome attempt then ⟨[decide (0 < attempt)], [], true⟩
    else
      let rest := fetchGo outcome retriesLeft (attempt + 1) (min (delay * 2) 4000)
      ⟨decide (0 < attempt) :: rest.cacheBusts, delay :: rest.waits, rest.ok⟩

/-- `DataManager.fetchFiscalData` with a cold cache: `attempt = 0`,
initial `delay = 250`. -/
def fetchFiscalData (outcome : ℕ → Bool) (retries : ℕ) : FetchTrace :=
  fetchGo outcome retries 0 250

/-- The always-failing upstream of the retry-bound property. -/
def alwaysFail : ℕ → Bool := fun _ => false

/-! ## `FiscalDashboard` tile registry (`chart.js`)

A tile bundles the definition fields `reloadTile` uses (`deps`,
`fetcher`) with the mutable per-tile state (`state`, the card error
display written by `ui.setError`/`ui.clearError`, and the loading flag).
The `fetcher` receives the `resolvedDeps` object, modelled as a partial
map from dependency id to snapshot, and either returns a new snapshot or
throws. -/

/-- A registered tile of `FiscalDashboard.tiles`. -/
structure Tile where
  deps : List String
  fetcher : (String → Option Snapshot) → Except String Snapshot
  state : Option Snapshot
  uiError : Option String
  loading : Bool

/-- The `this.tiles` map. -/
abbrev Registry := String → Option Tile

/-- The dashboard before `registerTiles` runs. -/
def emptyRegistry : Registry := fun _ => none

/-- `FiscalDashboard.register(id, definition)`:
`tiles.set(id, {...definition, ui, state: null, lastRendered: ""})`.
No validation of any kind is performed. -/
def register (r : Registry) (id : String) (deps : List String)
    (fetcher : (String → Option Snapshot) → Except String Snapshot) : Registry :=
  fun k => if k = id then some ⟨deps, fetcher, none, none, false⟩ else r k

/-- `tiles.set(id, t)` for an already-registered tile object. -/
def setTile (r : Registry) (id : String) (t : Tile) : Registry :=
  fun k => if k = id then some t else r k

/-- The dependency loop of `reloadTile`: for each `depId` in order,
`await this.reloadTile(depId)` (the `reload` argument is `reloadTile` at
the next recursion depth), then re-read the dep tile and record its state
in `resolvedDeps` only when non-null.  `none` propagates the
fuel-exhaustion marker of non-terminating recursion. -/
def reloadDepsGo (reload : Registry → String → Option Registry) :
    Registry → List String → (String → Option Snapshot) →
    Option (Registry × (String → Option Snapshot))
  | r, [], acc => some (r, acc)
  | r, depId :: ds, acc =>
    match reload r depId with
    | none => none
    | some r' =>
      let depState := (r' depId).bind Tile.state
      reloadDepsGo reload r' ds
        (fun k => if depState.isSome ∧ k = depId then depState else acc k)

/-- `FiscalDashboard.reloadTile(id)`.  The unbounded JS recursion is
modelled with explicit fuel: `none` means the recursion depth exceeded
the fuel (in JS: the call never returns / blows the stack).  A missing
tile only logs and returns.  Otherwise: clear the card error, set
loading, reload the dependencies collecting `resolvedDeps`, call the
fetcher; on success store the new state, on a thrown error call
`ui.setError` and leave `state` untouched; `finally` clears loading. -/
def reloadTile : ℕ → Registry → String → Option Registry
  | 0, _, _ => none
  | fuel + 1, r, id =>
    match r id with
    | none => some r
    | some tile =>
      let r1 := setTile r id { tile with uiError := none, loading := true }
      match reloadDepsGo (fun r' d => reloadTile fuel r' d) r1 tile.deps (fun _ => none) with
      | none => none
      | some (r2, resolvedDeps) =>
        let t2 := (r2 id).getD tile
        match tile.fetcher resolvedDeps with
        | .ok snap => some (setTile r2 id { t2 with state := some snap, loading := false })
        | .error e => some (setTile r2 id { t2 with uiError := some e, loading := false })

/-- The stored snapshot of tile `id` after a resolution step. -/
def stateOf (res : Option Registry) (id : String) : Option Snapshot :=
  res.bind fun r => (r id).bind Tile.state

/-- The card error display of tile `id` after a resolution step. -/
def errorOf (res : Option Registry) (id : String) : Option String :=
  res.bind fun r => (r id).bind Tile.uiError

/-- The deficit combinator (`chart.js`, tile `"deficit"`): reads
`deps.outlays` and `deps.receipts`; a missing dependency makes the JS
field access throw a `TypeError`.  Otherwise
`baseValue = outlays.baseValue - receipts.baseValue`,
`ratePerSec = (outlays.ratePerSec || 0) - (receipts.ratePerSec || 0)`
(`|| 0` is the identity on the total numeric field of the model), and
`baseTs = Math.min(outlays.baseTs, receipts.baseTs)`. -/
def deficitFetcher (deps : String → Option Snapshot) : Except String Snapshot :=
  match deps "outlays", deps "receipts" with
  | some o, some rc =>
    .ok ⟨o.baseValue - rc.baseValue, min o.baseTs rc.baseTs, o.ratePerSec - rc.ratePerSec⟩
  | _, _ => .error "TypeError: Cannot read properties of undefined"

/-- The debt-per-citizen combinator (`chart.js`, tile `"debt_per"`):
`baseValue = Utils.safeDivide(debt.baseValue, pop.baseValue)`,
`ratePerSec = Utils.safeDivide(debt.ratePerSec || 0, pop.baseValue)`,
`baseTs = debt.baseTs`; a missing dependency throws a `TypeError`. -/
def debtPerFetcher (deps : String → Option Snapshot) : Except String Snapshot :=
  match deps "debt", deps "pop" with
  | some debtState, some popState =>
    .ok ⟨safeDivide debtState.baseValue popState.baseValue,
         debtState.baseTs,
         safeDivide debtState.ratePerSec popState.baseValue⟩
  | _, _ => .error "TypeError: Cannot read properties of undefined"

/-- The `resolvedDeps` object handed to a two-dependency combinator. -/
def mkDeps (id1 : String) (s1 : Snapshot) (id2 : String) (s2 : Snapshot) :
    String → Option Snapshot :=
  fun k => if k = id1 then some s1 else if k = id2 then some s2 else none

/-! ## `DataManager` cache state and `forceRefresh` (`data.js`) -/

/-- A `this.cache` entry: the cached response body and its timestamp. -/
structure CacheEntry where
  data : String
  timestamp : ℕ
deriving DecidableEq

/-- The mutable fields of `DataManager`. -/
structure DataManager where
  cache : List (String × CacheEntry)
  cacheTimeout : ℕ
  useFallbackData : Bool
  useProxy : Bool

/-- `DataManager.forceRefresh()`: `this.cache.clear();
this.useFallbackData = false;` (plus a log line). -/
def forceRefresh (dm : DataManager) : DataManager :=
  { dm with cache := [], useFallbackData := false }

/-- The dashboard state the refresh button handler touches. -/
structure Dashboard where
  tiles : Registry
  dm : DataManager

/-- `FiscalDashboard.loadAll()` resolution order (`chart.js`). -/
def loadOrder : List String :=
  ["debt", "receipts", "outlays", "deficit", "cash", "pop", "gdp",
   "debt_per", "rcpt_per", "debt_gdp"]

/-- The tile-resolution part of `FiscalDashboard.loadAll()`: for each id
in `loadOrder`, `if (this.tiles.has(tileId)) await this.reloadTile(tileId)`
(status-indicator updates are display-only and omitted). -/
def loadAll (fuel : ℕ) (r : Registry) : Option Registry :=
  loadOrder.foldlM
    (fun acc tileId => if (acc tileId).isSome then reloadTile fuel acc tileId else some acc) r

/-- The refresh button handler (`chart.js` `setupEventListeners`):
`this.dataManager.forceRefresh(); this.loadAll();`. -/
def refreshClick (fuel : ℕ) (d : Dashboard) : Option Dashboard :=
  let d1 : Dashboard := { d with dm := forceRefresh d.dm }
  (loadAll fuel d1.tiles).map fun tiles' => { d1 with tiles := tiles' }

/-! ## Concrete scenarios -/

/-- A registry holding the cyclic pair `A depends on B`, `B depends on A`,
built with `register` exactly as `registerTiles` would; registration
performs no validation, so this value exists. -/
def regAB : Registry :=
  register (register emptyRegistry "B" ["A"] (fun _ => .error "x"))
    "A" ["B"] (fun _ => .error "x")

/-- A registry in which the leaf `"outlays"` has never resolved (its
stored state is `none` and its fetch keeps failing), the leaf
`"receipts"` resolves to `sr`, and the derived `"deficit"` tile holds the
prior snapshot `s0` from an earlier successful cycle. -/
def scenDerived (s0 sr : Snapshot) : Registry := fun k =>
  if k = "deficit" then some ⟨["outlays", "receipts"], deficitFetcher, some s0, none, false⟩
  else if k = "outlays" then some ⟨[], fun _ => .error "HTTP 503", none, none, false⟩
  else if k = "receipts" then some ⟨[], fun _ => .ok sr, none, none, false⟩
  else none

/-- A leaf tile holding a previous snapshot whose refresh now fails. -/
def staleTile : Tile := ⟨[], fun _ => .error "HTTP 500", some ⟨100, 0, 1⟩, none, false⟩

/-- A one-tile registry around `staleTile`. -/
def staleReg : Registry := fun k => if k = "debt" then some staleTile else none

/-! ## Helper lemmas -/

/-- A registry contains the cyclic pair: `"A"` lists `"B"` as dependency
and vice versa.  Preserved by the `setTile` updates `reloadTile` makes. -/
def cyclicPair (r : Registry) : Prop :=
  (∃ t, r "A" = some t ∧ t.deps = ["B"]) ∧ (∃ t, r "B" = some t ∧ t.deps = ["A"])

lemma cyclicPair_regAB : cyclicPair regAB := by
  constructor
  · exact ⟨⟨["B"], fun _ => .error "x", none, none, false⟩, rfl, rfl⟩
  · exact ⟨⟨["A"], fun _ => .error "x", none, none, false⟩, rfl, rfl⟩

lemma reloadTile_cyclic : ∀ (fuel : ℕ) (r : Registry), cyclicPair r →
    reloadTile fuel r "A" = none ∧ reloadTile fuel r "B" = none := by
  intro fuel
  induction fuel with
  | zero => intro r _; exact ⟨rfl, rfl⟩
  | succ n ih =>
    intro r hr
    obtain ⟨⟨ta, hA, hdA⟩, ⟨tb, hB, hdB⟩⟩ := hr
    constructor
    · have hinv : cyclicPair (setTile r "A" { ta with uiError := none, loading := true }) :=
        ⟨⟨{ ta with uiError := none, loading := true }, by simp [setTile], hdA⟩,
         ⟨tb, by simp [setTile, hB], hdB⟩⟩
      have hrec := (ih _ hinv).2
      rw [hdA] at hrec
      simp only [reloadTile, hA, hdA, reloadDepsGo, hrec]
    · have hinv : cyclicPair (setTile r "B" { tb with uiError := none, loading := true }) :=
        ⟨⟨ta, by simp [setTile, hA], hdA⟩,
         ⟨{ tb with uiError := none, loading := true }, by simp [setTile], hdB⟩⟩
      have hrec := (ih _ hinv).1
      rw [hdB] at hrec
      simp only [reloadTile, hB, hdB, reloadDepsGo, hrec]

/-- The delay update step of the retry loop:
`delay = Math.min(delay * 2, 4000)`. -/
def capDouble (x : ℕ) : ℕ := min (x * 2) 4000

lemma fetchGo_fail_ok (rl : ℕ) : ∀ a d, (fetchGo alwaysFail rl a d).ok = false := by
  induction rl with
  | zero => intro a d; rfl
  | succ n ih => intro a d; simpa [fetchGo, alwaysFail] using ih (a + 1) (min (d * 2) 4000)

lemma fetchGo_fail_busts (rl : ℕ) : ∀ a d, 0 < a →
    (fetchGo alwaysFail rl a d).cacheBusts = List.replicate (rl + 1) true := by
  induction rl with
  | zero => intro a d ha; simp [fetchGo, alwaysFail, ha]
  | succ n ih =>
    intro a d ha
    simp [fetchGo, alwaysFail, ha, ih (a + 1) (min (d * 2) 4000) (Nat.succ_pos a),
      List.replicate_succ]

lemma fetchGo_fail_waits (rl : ℕ) : ∀ a d, (fetchGo alwaysFail rl a d).waits =
    (List.range rl).map (fun i => capDouble^[i] d) := by
  induction rl with
  | zero => intro a d; rfl
  | succ n ih =>
    intro a d
    rw [List.range_succ_eq_map]
    simp only [fetchGo, alwaysFail, List.map_cons, Function.iterate_zero, id_eq,
      List.map_map, ih (a + 1) (min (d * 2) 4000)]
    refine congrArg (d :: ·) (List.map_congr_left fun i _ => ?_)
    simp [Function.comp, Function.iterate_succ_apply, capDouble]

lemma capDouble_iter_250 : ∀ i, capDouble^[i] 250 = min (250 * 2 ^ i) 4000 := by
  intro i
  induction i with
  | zero => rfl
  | succ n ih =>
    rw [Function.iterate_succ_apply', ih, capDouble, pow_succ]
    have h : 1 ≤ 2 ^ n := Nat.one_le_two_pow
    omega

/-! ## Claim theorems -/

/-- Claim C1: `DataProcessor.calculateLiveValue` returns `null` when the
snapshot is `null` or its `baseValue` is nullish; returns `baseValue`
unchanged when `ratePerSec` or `baseTs` is nullish; and otherwise returns
exactly `baseValue + ratePerSec * (now - baseTs)`, for every rate
including zero and negative ones. -/
theorem claim_C1_live_projector :
    (∀ now : ℚ, calculateLiveValue none now = none)
    ∧ (∀ (bts rps : Option ℚ) (now : ℚ),
        calculateLiveValue (some ⟨none, bts, rps⟩) now = none)
    ∧ (∀ (bv : ℚ) (bts : Option ℚ) (now : ℚ),
        calculateLiveValue (some ⟨some bv, bts, none⟩) now = some bv)
    ∧ (∀ (bv : ℚ) (rps : Option ℚ) (now : ℚ),
        calculateLiveValue (some ⟨some bv, none, rps⟩) now = some bv)
    ∧ (∀ (bv t r now : ℚ),
        calculateLiveValue (some ⟨some bv, some t, some r⟩) now
          = some (bv + r * (now - t))) := by
  refine ⟨fun _ => rfl, fun _ _ _ => rfl, ?_, ?_, fun _ _ _ _ => rfl⟩
  · intro bv bts now; cases bts <;> rfl
  · intro bv rps now; cases rps <;> rfl

/-- Claim C2, counterexample: in a cycle where the dependency
`"outlays"` of the derived tile `"deficit"` has never resolved, the
derived tile is not skipped — its combinator is invoked with the
dependency missing, the resulting `TypeError` is caught, and an error IS
recorded against the derived tile (via `ui.setError`), contradicting the
claim that no error is recorded. -/
theorem claim_C2_counterexample :
    errorOf (reloadTile 3 (scenDerived ⟨1900000000000, 900, 50000⟩ ⟨4900000000000, 1000, 150000⟩) "deficit") "deficit"
      = some "TypeError: Cannot read properties of undefined" := by decide

/-- Claim C2, amended: for every prior snapshot of the derived tile and
every value of the healthy dependency, a resolution pass over a derived
tile whose dependency `"outlays"` has never resolved terminates without
crashing, leaves the derived tile's stored snapshot unchanged, fabricates
no default snapshot, but does invoke the combinator (which throws on the
missing dependency) and records the thrown `TypeError` as the derived
tile's displayed error. -/
theorem claim_C2_dependency_not_skipped : ∀ s0 sr : Snapshot,
    (reloadTile 3 (scenDerived s0 sr) "deficit").isSome = true
    ∧ stateOf (reloadTile 3 (scenDerived s0 sr) "deficit") "deficit" = some s0
    ∧ errorOf (reloadTile 3 (scenDerived s0 sr) "deficit") "deficit"
        = some "TypeError: Cannot read properties of undefined"
    ∧ stateOf (reloadTile 3 (scenDerived s0 sr) "deficit") "outlays" = none := by
  intro s0 sr
  exact ⟨rfl, rfl, rfl, rfl⟩

/-- Claim C3, counterexample: registering the cyclic pair `A depends on
B`, `B depends on A` raises no error at all — `register` stores both
definitions unvalidated (both lookups succeed afterwards) — and a
resolution attempt on the cyclic registry does not complete within
recursion depth 5 (the fuel-exhaustion marker `none`). -/
theorem claim_C3_counterexample :
    ((regAB "A").map Tile.deps = some ["B"])
    ∧ ((regAB "B").map Tile.deps = some ["A"])
    ∧ reloadTile 5 regAB "A" = none := ⟨rfl, rfl, rfl⟩

/-- Claim C3, amended: the code performs no cycle detection whatever.
Registering `A depends on B`, `B depends on A` succeeds silently (no
`ConfigurationError`, which does not exist in the code), and a resolution
attempt on the cyclic registry never terminates: it exhausts every
recursion depth (unbounded mutual recursion of `reloadTile`). -/
theorem claim_C3_no_cycle_detection :
    ((regAB "A").map Tile.deps = some ["B"])
    ∧ ((regAB "B").map Tile.deps = some ["A"])
    ∧ ∀ fuel, reloadTile fuel regAB "A" = none :=
  ⟨rfl, rfl, fun fuel => (reloadTile_cyclic fuel regAB cyclicPair_regAB).1⟩

/-- Claim C4: a tile holding a snapshot from an earlier successful
resolution whose refresh attempt fails keeps its stored snapshot
(`tile.state` unchanged) while the error is recorded (the card error
display — the code's realization of `lastError` — becomes non-null), and
the resolution pass completes normally. -/
theorem claim_C4_stale_preservation :
    ∀ (r : Registry) (id : String) (t : Tile) (fuel : ℕ) (e : String) (s : Snapshot),
    r id = some t → t.deps = [] → t.fetcher (fun _ => none) = .error e →
    t.state = some s →
    stateOf (reloadTile (fuel + 1) r id) id = some s
    ∧ errorOf (reloadTile (fuel + 1) r id) id = some e
    ∧ (reloadTile (fuel + 1) r id).isSome = true := by
  intro r id t fuel e s hr hdeps hf hs
  simp only [reloadTile, hr, hdeps, reloadDepsGo, stateOf, errorOf]
  simp [setTile, hf, hs]

/-- Claim C4, witness: a concrete one-tile registry with a stored
snapshot and a failing fetch. -/
theorem claim_C4_witness :
    stateOf (reloadTile 1 staleReg "debt") "debt" = some ⟨100, 0, 1⟩
    ∧ errorOf (reloadTile 1 staleReg "debt") "debt" = some "HTTP 500"
    ∧ (reloadTile 1 staleReg "debt").isSome = true :=
  claim_C4_stale_preservation staleReg "debt" staleTile 0 "HTTP 500" ⟨100, 0, 1⟩
    rfl rfl rfl rfl

/-- Claim C5: with `retries = 2` and every attempt failing,
`fetchFiscalData` makes exactly 3 attempts (1 initial + 2 retries), the
initial attempt carries no cache-busting nonce and every retry does, the
waits between attempts are 250ms then 500ms (strictly increasing), the
loop ends by throwing; and in general the n-th wait is
`min (250 * 2^n) 4000` — doubling from 250ms, capped at 4000ms. -/
theorem claim_C5_retry_backoff :
    fetchFiscalData alwaysFail 2 = ⟨[false, true, true], [250, 500], false⟩
    ∧ (∀ retries, (fetchFiscalData alwaysFail retries).cacheBusts
        = false :: List.replicate retries true)
    ∧ (∀ retries, (fetchFiscalData alwaysFail retries).waits
        = (List.range retries).map (fun i => min (250 * 2 ^ i) 4000))
    ∧ (∀ retries, (fetchFiscalData alwaysFail retries).ok = false)
    ∧ (∀ i, min (250 * 2 ^ i) 4000 < min (250 * 2 ^ (i + 1)) 4000
        ∨ min (250 * 2 ^ (i + 1)) 4000 = 4000) := by
  refine ⟨by decide, ?_, ?_, ?_, ?_⟩
  · intro retries
    cases retries with
    | zero => rfl
    | succ n =>
      simpa [fetchFiscalData, fetchGo, alwaysFail, List.replicate_succ]
        using fetchGo_fail_busts n 1 (min (250 * 2) 4000) Nat.one_pos
  · intro retries
    rw [fetchFiscalData, fetchGo_fail_waits]
    exact List.map_congr_left fun i _ => capDouble_iter_250 i
  · intro retries
    exact fetchGo_fail_ok retries 0 250
  · intro i
    have h : 1 ≤ 2 ^ i := Nat.one_le_two_pow
    rw [pow_succ]
    omega

/-- Claim C6: `DataProcessor.processDebtData` throws exactly when the row
list is empty; one record yields `ratePerSec = 0` with base value and
timestamp from that record; two or more records yield
`ratePerSec = (currentValue - previousValue) /
max(1, currentTimestamp - previousTimestamp)` from the first two
records. -/
theorem claim_C6_discrete_normalizer :
    (processDebtData [] = .error "No debt data returned")
    ∧ (∀ rows : List DebtRow,
        processDebtData rows = .error "No debt data returned" ↔ rows = [])
    ∧ (∀ r : DebtRow, processDebtData [r]
        = .ok ⟨r.tot_pub_debt_out_amt, (parseDate r.record_date : ℚ), 0⟩)
    ∧ (∀ (r1 r2 : DebtRow) (rest : List DebtRow),
        processDebtData (r1 :: r2 :: rest)
          = .ok ⟨r1.tot_pub_debt_out_amt, (parseDate r1.record_date : ℚ),
              (r1.tot_pub_debt_out_amt - r2.tot_pub_debt_out_amt) /
                max 1 ((parseDate r1.record_date : ℚ) - (parseDate r2.record_date : ℚ))⟩) := by
  refine ⟨rfl, ?_, fun r => rfl, fun r1 r2 rest => rfl⟩
  intro rows
  cases rows with
  | nil => simp [processDebtData]
  | cons a l =>
    cases l <;> simp [processDebtData]

/-- Claim C7: `DataProcessor.processWorldBankData` with at least two
records (newest first) returns `baseValue` equal to the most recent
record's value,
`ratePerSec = ln(1 + (current - previous)/previous) / SEC_YEAR * current`
with `SEC_YEAR = 365 * 24 * 3600` seconds, and `baseTs` pinned to
January 1 of the current record's year; with fewer than two records it
throws. -/
theorem claim_C7_worldbank_normalizer :
    SEC_YEAR = 365 * 24 * 3600
    ∧ (processWorldBankData [] = .error "Insufficient World Bank data")
    ∧ (∀ r : WBRow, processWorldBankData [r] = .error "Insufficient World Bank data")
    ∧ (∀ (r1 r2 : WBRow) (rest : List WBRow),
        processWorldBankData (r1 :: r2 :: rest)
          = .ok ⟨r1.value, (parseDateWith ⟨r1.date, 1, 1⟩ ⟨0, 0, 0⟩ : ℚ),
              Real.log (1 + (((r1.value - r2.value) / r2.value : ℚ) : ℝ))
                / (SEC_YEAR : ℝ) * (r1.value : ℝ)⟩)
    ∧ (∀ y : Int, parseDateWith ⟨y, 1, 1⟩ ⟨0, 0, 0⟩ = epochDayStart ⟨y, 1, 1⟩) := by
  refine ⟨rfl, rfl, fun r => rfl, fun r1 r2 rest => rfl, fun y => ?_⟩
  simp [parseDateWith]

/-- Claim C8: `Utils.safeDivide(n, 0) = 0` and
`Utils.safeDivide(n, d) = n / d` for `d ≠ 0`; consequently the ratio
combinator (debt per citizen) given a denominator snapshot with
`baseValue = 0` returns `baseValue = 0` and `ratePerSec = 0` without
throwing. -/
theorem claim_C8_safe_divide :
    (∀ n : ℚ, safeDivide n 0 = 0)
    ∧ (∀ n d : ℚ, d ≠ 0 → safeDivide n d = n / d)
    ∧ (∀ ds ps : Snapshot, ps.baseValue = 0 →
        debtPerFetcher (mkDeps "debt" ds "pop" ps) = .ok ⟨0, ds.baseTs, 0⟩) := by
  refine ⟨fun n => by simp [safeDivide], fun n d hd => by simp [safeDivide, hd], ?_⟩
  intro ds ps h
  simp [debtPerFetcher, mkDeps, safeDivide, h]

/-- Claim C8, witness: concrete divisions and a concrete zero-population
snapshot. -/
theorem claim_C8_witness :
    safeDivide 7 0 = 0 ∧ safeDivide 7 2 = 7 / 2
    ∧ debtPerFetcher (mkDeps "debt" ⟨37000000000000, 5, 3⟩ "pop" ⟨0, 9, 1⟩)
        = .ok ⟨0, 5, 0⟩ :=
  ⟨claim_C8_safe_divide.1 7,
   claim_C8_safe_divide.2.1 7 2 (by norm_num),
   claim_C8_safe_divide.2.2 ⟨37000000000000, 5, 3⟩ ⟨0, 9, 1⟩ rfl⟩

/-- Claim C9: `DataManager.forceRefresh` empties the whole fetch cache
and resets the degraded flag `useFallbackData` to `false`, leaving the
other `DataManager` fields unchanged; it does not touch any tile's stored
snapshot (the refresh-button handler passes the tiles to `loadAll`
exactly as they were), and the handler then triggers the full
re-resolution `loadAll` over those unchanged tiles. -/
theorem claim_C9_force_refresh :
    (∀ dm : DataManager,
      (forceRefresh dm).cache = []
      ∧ (forceRefresh dm).useFallbackData = false
      ∧ (forceRefresh dm).cacheTimeout = dm.cacheTimeout
      ∧ (forceRefresh dm).useProxy = dm.useProxy)
    ∧ (∀ d : Dashboard, ({ d with dm := forceRefresh d.dm } : Dashboard).tiles = d.tiles)
    ∧ (∀ (fuel : ℕ) (d : Dashboard), refreshClick fuel d
        = (loadAll fuel d.tiles).map fun tiles' => ⟨tiles', forceRefresh d.dm⟩) :=
  ⟨fun _ => ⟨rfl, rfl, rfl, rfl⟩, fun _ => rfl, fun _ _ => rfl⟩

/-- Claim C10: `Utils.parseDate` appends `'T23:59:59Z'` by default, so
the `baseTs` the discrete normalizer stores for a record dated `d` is the
epoch second of `d` at 23:59:59 UTC — the end of the observation day, one
second before midnight, not its start; concretely,
`parseDate "2025-09-24"` is `1758758399`. -/
theorem claim_C10_end_of_day :
    (∀ dt : DateYMD, parseDate dt = epochDayStart dt + 86399)
    ∧ (∀ dt : DateYMD, parseDate dt = epochDayStart dt + 86400 - 1)
    ∧ (∀ (r : DebtRow) (rest : List DebtRow),
        (processDebtData (r :: rest)).map Snapshot.baseTs
          = .ok ((epochDayStart r.record_date : ℚ) + 86399))
    ∧ parseDate ⟨2025, 9, 24⟩ = 1758758399 := by
  refine ⟨fun dt => ?_, fun dt => ?_, fun r rest => ?_, by decide⟩
  · simp [parseDate, parseDateWith, defaultSuffix]; omega
  · simp [parseDate, parseDateWith, defaultSuffix]; omega
  · cases rest <;>
      simp [processDebtData, parseDate, parseDateWith, defaultSuffix, Except.map] <;>
      ring

end USDebt

